import Mathlib

/-!
# Verification of the rubi-studio prompt-execution core

Shallow embedding of the Prompt Execution Orchestration Engine of
`back-end-v2/app`: the per-provider cost computation
(`llm_providers.py`), variable validation and enrichment
(`validators.py`), and the `execute_prompt` orchestration route
(`main.py`).

Modelling conventions:
* Python floats (prices, costs, wall-clock times) are modelled as exact
  rationals `ℚ`; `int(t * 0.75)` on a nonnegative integer `t` is the
  floor `3 * t / 4` in `ℕ`.
* Python dicts are modelled as first-match association lists.
* The database session, metric registries and the gauge are modelled as
  explicit outputs of the orchestration function (the list of history
  rows written, the list of metric events emitted, the final gauge
  value).
-/

namespace RubiStudio

/-- First-match association-list lookup, modelling Python `dict` access
(`d[k]` / `k in d`). -/
def lookupKey (k : String) : List (String × α) → Option α
  | [] => none
  | (k₀, v) :: rest => if k₀ = k then some v else lookupKey k rest

/-- A per-model price entry: USD per 1000 tokens for input and for
output (`llm_providers.py`, the `pricing` dict values). -/
structure Price where
  input : ℚ
  output : ℚ
deriving DecidableEq

/-- Table `OpenAIProvider.pricing` (llm_providers.py lines 55-59). -/
def OpenAIProvider.pricing : List (String × Price) :=
  [("gpt-4", ⟨0.03, 0.06⟩),
   ("gpt-4-turbo", ⟨0.01, 0.03⟩),
   ("gpt-3.5-turbo", ⟨0.0005, 0.0015⟩)]

/-- Table `GeminiProvider.pricing` (llm_providers.py lines 113-116). -/
def GeminiProvider.pricing : List (String × Price) :=
  [("gemini-pro", ⟨0.00025, 0.0005⟩),
   ("gemini-2.5-flash", ⟨0.000075, 0.0003⟩)]

/-- Table `ClaudeProvider.pricing` (llm_providers.py lines 174-178). -/
def ClaudeProvider.pricing : List (String × Price) :=
  [("claude-3-opus-20240229", ⟨0.015, 0.075⟩),
   ("claude-3-sonnet-20240229", ⟨0.003, 0.015⟩),
   ("claude-3-haiku-20240307", ⟨0.00025, 0.00125⟩)]

/-- Python `round(x, 6)` over exact rationals: rounding to the nearest
multiple of `10⁻⁶` (`⌊y + 1/2⌋` is Mathlib `round y`; Python breaks
exact ties to even instead, which no claim here depends on). -/
def round6 (x : ℚ) : ℚ := ((⌊x * 1000000 + 1/2⌋ : ℤ) : ℚ) / 1000000

/-- Python `input_tokens = int(tokens * 0.75)` (llm_providers.py line 93). -/
def input_tokens (tokens : ℕ) : ℕ := 3 * tokens / 4

/-- Python `output_tokens = int(tokens * 0.25)` (llm_providers.py line 94). -/
def output_tokens (tokens : ℕ) : ℕ := tokens / 4

/-- Shared body of the three `calculate_cost` methods
(llm_providers.py lines 87-100, 149-161, 206-218): a model name absent
from the price table is replaced by the provider default `dflt`, the
token count is split 75/25 with integer truncation, and the resulting
USD amount is rounded to 6 decimals. -/
def calcCost (pricing : List (String × Price)) (dflt : String)
    (tokens : ℕ) (model : String) : ℚ :=
  let m := if (lookupKey model pricing).isSome then model else dflt
  let p := (lookupKey m pricing).getD ⟨0, 0⟩
  round6 ((input_tokens tokens : ℚ) / 1000 * p.input +
    (output_tokens tokens : ℚ) / 1000 * p.output)

/-- Method `OpenAIProvider.calculate_cost` (llm_providers.py lines 87-100). -/
def OpenAIProvider.calculate_cost (tokens : ℕ) (model : String) : ℚ :=
  calcCost OpenAIProvider.pricing "gpt-4" tokens model

/-- Method `GeminiProvider.calculate_cost` (llm_providers.py lines 149-161). -/
def GeminiProvider.calculate_cost (tokens : ℕ) (model : String) : ℚ :=
  calcCost GeminiProvider.pricing "gemini-pro" tokens model

/-- Method `ClaudeProvider.calculate_cost` (llm_providers.py lines 206-218). -/
def ClaudeProvider.calculate_cost (tokens : ℕ) (model : String) : ℚ :=
  calcCost ClaudeProvider.pricing "claude-3-sonnet-20240229" tokens model

/-- The cost formula exactly as the specification states it
(spec §8: `cost(t) = round(0.75t/1000*pin + 0.25t/1000*pout, 6)`),
with no intermediate integer truncation.  Stated separately so it can
be compared with the implemented `calcCost`. -/
def spec_cost (t : ℕ) (pin pout : ℚ) : ℚ :=
  round6 (0.75 * t / 1000 * pin + 0.25 * t / 1000 * pout)

/-! ## JSON values and the variable validator (`validators.py`) -/

/-- A JSON value, the payload type of variable maps and schemas
(Python `Dict[str, Any]` entries). -/
inductive JSON where
  | null
  | bool (b : Bool)
  | num (q : ℚ)
  | str (s : String)
  | arr (elems : List JSON)
  | obj (fields : List (String × JSON))

/-- Python `schema.get("properties", Dict())` (validators.py line 47): the declared
property descriptors, or the empty dict when absent or not an object. -/
def propertiesOf (schema : List (String × JSON)) : List (String × JSON) :=
  match lookupKey "properties" schema with
  | some (.obj props) => props
  | _ => []

/-- The `required` list of a schema: the string entries of the
`required` array, or `[]` when absent. -/
def requiredList (schema : List (String × JSON)) : List String :=
  match lookupKey "required" schema with
  | some (.arr elems) =>
    elems.filterMap fun j =>
      match j with
      | .str s => some s
      | _ => none
  | _ => []

/-- The declared `type` keyword of a property descriptor, when present. -/
def typeOf (propSchema : JSON) : Option String :=
  match propSchema with
  | .obj fields =>
    match lookupKey "type" fields with
    | some (.str t) => some t
    | _ => none
  | _ => none

/-- The declared `default` of a property descriptor, when present
(`"default" in prop_schema`, validators.py line 50). -/
def defaultOf (propSchema : JSON) : Option JSON :=
  match propSchema with
  | .obj fields => lookupKey "default" fields
  | _ => none

/-- JSON-Schema primitive `type` keyword semantics. -/
def typeMatches : String → JSON → Bool
  | "string", .str _ => true
  | "number", .num _ => true
  | "integer", .num q => q.den = 1
  | "boolean", .bool _ => true
  | "array", .arr _ => true
  | "object", .obj _ => true
  | "null", .null => true
  | _, _ => false

/-- Modelled from the spec: `Draft7Validator(schema).iter_errors(vars)`
comes from the external `jsonschema` library, which is not part of this
repository.  Spec §4.1 names standard JSON-Schema semantics; the keywords
the claims depend on are modelled: the top-level `required` check and the
per-property `type` check.  Returns the list of violation messages. -/
def draft7Errors (vars : List (String × JSON))
    (schema : List (String × JSON)) : List String :=
  (requiredList schema).filterMap
    (fun r =>
      if (lookupKey r vars).isSome then none
      else some ("root: " ++ r ++ " is a required property")) ++
  (propertiesOf schema).filterMap
    (fun p =>
      match lookupKey p.1 vars, typeOf p.2 with
      | some v, some t =>
        if typeMatches t v then none
        else some (p.1 ++ ": value is not of type " ++ t)
      | _, _ => none)

/-- One step of the default-enrichment loop (validators.py lines 49-52):
a declared property absent from the accumulator that carries a default
is appended with that default. -/
def enrichStep (acc : List (String × JSON)) (p : String × JSON) :
    List (String × JSON) :=
  match lookupKey p.1 acc, defaultOf p.2 with
  | none, some d => acc ++ [(p.1, d)]
  | _, _ => acc

/-- The enrichment loop over `schema.properties`. -/
def enrich (vars : List (String × JSON))
    (properties : List (String × JSON)) : List (String × JSON) :=
  properties.foldl enrichStep vars

/-- Function `validate_variables_against_schema` (validators.py lines 13-54):
an empty schema skips validation; otherwise the Draft7 validation step
runs, a nonempty error list raises `ValueError` with the aggregated
messages, and on success the vars are enriched with declared
defaults. -/
def validate_variables_against_schema (vars : List (String × JSON))
    (schema : List (String × JSON)) : Except String (List (String × JSON)) :=
  if schema.isEmpty then .ok vars
  else
    match draft7Errors vars schema with
    | [] => .ok (enrich vars (propertiesOf schema))
    | errs =>
      .error ("Variable validation failed:\n" ++ String.intercalate "\n" errs)

/-! ## Templates and the execution orchestrator (`main.py`) -/

/-- Python `str()` of a variable value as substituted by `str.format`;
composite values are rendered opaquely (no claim concerns the rendered
text). -/
def JSON.render : JSON → String
  | .null => "None"
  | .bool true => "True"
  | .bool false => "False"
  | .num q => toString q
  | .str s => s
  | .arr _ => "<list>"
  | .obj _ => "<dict>"

/-- A template string, parsed into literal chunks and named
placeholders (the named fields of Python `str.format`). -/
inductive TemplatePart where
  | lit (s : String)
  | var (name : String)

/-- Python `prompt.template.format(**validated_variables)` (main.py line 313):
renders left to right and fails with the first placeholder name that is
absent from the variable map (Python `KeyError`). -/
def formatTemplate (parts : List TemplatePart)
    (vars : List (String × JSON)) : Except String String :=
  match parts with
  | [] => .ok ""
  | .lit s :: rest => (formatTemplate rest vars).map (fun out => s ++ out)
  | .var n :: rest =>
    match lookupKey n vars with
    | none => .error n
    | some v => (formatTemplate rest vars).map (fun out => v.render ++ out)

/-- The fields of `models.ExpertPrompt` the orchestrator reads. -/
structure ExpertPrompt where
  template : List TemplatePart
  variables_schema : List (String × JSON)

/-- Model `schemas.PromptExecutionRequest` after pydantic parsing
(schemas.py lines 99-104): `llm_provider` / `llm_model` hold `none`
exactly when the caller sent an explicit JSON `null`. -/
structure PromptExecutionRequest where
  vars : List (String × JSON)
  llm_provider : Option String
  llm_model : Option String

/-- Pydantic parsing of an `Optional[str]` field with a string default
(schemas.py lines 101-102): an omitted field (`none` outer layer) takes
the declared default; a present field keeps its value, so an explicit
JSON `null` stays `none`. -/
def parseOptField (dflt : String) : Option (Option String) → Option String
  | none => some dflt
  | some v => v

/-- Python `x or d` on an `Optional[str]` value: both `None` and the
empty string are falsy (main.py lines 302-303, 396, 406-407). -/
def pyOr (x : Option String) (d : String) : String :=
  match x with
  | none => d
  | some s => if s = "" then d else s

/-- The keys of `LLMFactory._providers` (llm_providers.py lines
224-228); `get_provider` raises `ValueError` for any other name. -/
def LLMFactory.providers : List String := ["openai", "gemini", "claude"]

/-- Python `llm_provider.calculate_cost(...)` (main.py line 331), dispatched on
the resolved provider name. -/
def providerCost (provider : String) (tokens : ℕ) (model : String) : ℚ :=
  if provider = "openai" then OpenAIProvider.calculate_cost tokens model
  else if provider = "gemini" then GeminiProvider.calculate_cost tokens model
  else ClaudeProvider.calculate_cost tokens model

/-- The dict returned by `LLMProvider.execute`. -/
structure LLMResult where
  output : String
  tokens_used : ℕ

/-- A row of `models.PromptExecutionHistory` as written by
`execute_prompt` (db-generated `id`, `user_id` and `created_at`
omitted). -/
structure PromptExecutionHistory where
  prompt_id : ℕ
  vars : List (String × JSON)
  output : Option String
  llm_provider : String
  llm_model : String
  tokens_used : ℕ
  cost : ℚ
  execution_time : ℚ
  status : String
  error_message : Option String

/-- A raised `HTTPException`. -/
structure HttpError where
  status_code : ℕ
  detail : String

/-- The success response body of `execute_prompt` (main.py lines
377-387; db-generated `execution_id` omitted). -/
structure PromptExecutionResponse where
  prompt_id : ℕ
  output : String
  llm_provider : String
  llm_model : String
  tokens_used : ℕ
  cost : ℚ
  execution_time : ℚ
  status : String

/-- A Prometheus metric emission of `execute_prompt`. -/
inductive MetricEvent where
  | execCounter (prompt_id : ℕ) (llm_provider status : String)
  | durationObs (prompt_id : ℕ) (llm_provider : String) (duration : ℚ)
  | tokensCounter (llm_provider model : String) (n : ℕ)
  | costCounter (llm_provider model : String) (c : ℚ)

/-- Everything observable about one `execute_prompt` call: the returned
or raised value, the history rows written, the metric events emitted,
the final value of the `active_executions` gauge, and the
(provider, model) pair actually passed to `LLMProvider.execute` (when
reached). -/
structure ExecOutcome where
  result : Except HttpError PromptExecutionResponse
  records : List PromptExecutionHistory
  metrics : List MetricEvent
  gauge : ℤ
  dispatched : Option (String × String)

/-- Route `execute_prompt` (main.py lines 272-420).  The database lookup of
the prompt row is the `prompt?` argument; the vendor call
`llm_provider.execute(...)` is the `llmExec` oracle, applied to the
resolved provider name, the filled prompt and the resolved model name;
`start_time` and `t_end` are the two `time.time()` readings.  The gauge
is incremented at entry and decremented in `finally` on every exit. -/
def execute_prompt (prompt_id : ℕ) (execution_request : PromptExecutionRequest)
    (prompt? : Option ExpertPrompt)
    (llmExec : String → String → String → Except String LLMResult)
    (gauge0 : ℤ) (start_time t_end : ℚ) : ExecOutcome :=
  let gauge := gauge0 + 1
  match prompt? with
  | none =>
    ⟨.error ⟨404, "Expert prompt not found"⟩, [], [], gauge - 1, none⟩
  | some prompt =>
    match validate_variables_against_schema execution_request.vars
        prompt.variables_schema with
    | .error e => ⟨.error ⟨400, e⟩, [], [], gauge - 1, none⟩
    | .ok validated_variables =>
      let llm_provider_name := pyOr execution_request.llm_provider "openai"
      let llm_model_name := pyOr execution_request.llm_model "gpt-4"
      if llm_provider_name ∉ LLMFactory.providers then
        ⟨.error ⟨400, "Unknown LLM provider: " ++ llm_provider_name ++
          ". Available providers: openai, gemini, claude"⟩,
          [], [], gauge - 1, none⟩
      else
        match formatTemplate prompt.template validated_variables with
        | .error k =>
          ⟨.error ⟨400, "Missing variable in template: " ++ k⟩,
            [], [], gauge - 1, none⟩
        | .ok filled_prompt =>
          match llmExec llm_provider_name filled_prompt llm_model_name with
          | .error e =>
            ⟨.error ⟨500, "Execution failed: " ++ e⟩,
              [⟨prompt_id, execution_request.vars, none,
                pyOr execution_request.llm_provider "unknown",
                pyOr execution_request.llm_model "unknown",
                0, 0, t_end - start_time, "error", some e⟩],
              [.execCounter prompt_id
                (pyOr execution_request.llm_provider "unknown") "error"],
              gauge - 1, some (llm_provider_name, llm_model_name)⟩
          | .ok execution_result =>
            let cost := providerCost llm_provider_name
              execution_result.tokens_used llm_model_name
            let duration := t_end - start_time
            ⟨.ok ⟨prompt_id, execution_result.output, llm_provider_name,
                llm_model_name, execution_result.tokens_used, cost, duration,
                "success"⟩,
              [⟨prompt_id, validated_variables, some execution_result.output,
                llm_provider_name, llm_model_name,
                execution_result.tokens_used, cost, duration,
                "success", none⟩],
              [.execCounter prompt_id llm_provider_name "success",
               .durationObs prompt_id llm_provider_name duration,
               .tokensCounter llm_provider_name llm_model_name
                 execution_result.tokens_used,
               .costCounter llm_provider_name llm_model_name cost],
              gauge - 1, some (llm_provider_name, llm_model_name)⟩

/-- A schema declaring one property `tone` with default `"formal"`
(spec §8 scenario), used as a concrete input below. -/
def toneSchema : List (String × JSON) :=
  [("properties", .obj [("tone", .obj [("default", .str "formal")])])]

/-- A schema requiring the property `name` (spec §8 scenario), used as
a concrete input below. -/
def nameRequiredSchema : List (String × JSON) :=
  [("required", .arr [.str "name"])]

/-! ## Lemmas about lookup and the shared cost body -/

theorem lookupKey_mem {k : String} {l : List (String × α)} {v : α}
    (h : lookupKey k l = some v) : (k, v) ∈ l := by
  induction l with
  | nil => simp [lookupKey] at h
  | cons p rest ih =>
    obtain ⟨k₀, v₀⟩ := p
    simp only [lookupKey] at h
    split at h
    · next heq =>
      injection h with hv
      subst heq
      subst hv
      exact List.mem_cons_self _ _
    · exact List.mem_cons_of_mem _ (ih h)

theorem round6_mono {x y : ℚ} (h : x ≤ y) : round6 x ≤ round6 y := by
  unfold round6
  have hf : ⌊x * 1000000 + 1 / 2⌋ ≤ ⌊y * 1000000 + 1 / 2⌋ :=
    Int.floor_mono (by linarith)
  have hc : ((⌊x * 1000000 + 1 / 2⌋ : ℤ) : ℚ) ≤ ((⌊y * 1000000 + 1 / 2⌋ : ℤ) : ℚ) := by
    exact_mod_cast hf
  linarith

theorem calcCost_of_lookup {pricing : List (String × Price)} {dflt model : String}
    {p : Price} (h : lookupKey model pricing = some p) (t : ℕ) :
    calcCost pricing dflt t model =
      round6 ((input_tokens t : ℚ) / 1000 * p.input +
        (output_tokens t : ℚ) / 1000 * p.output) := by
  unfold calcCost
  simp [h]

theorem calcCost_of_lookup_none {pricing : List (String × Price)}
    {dflt model : String} (h : lookupKey model pricing = none) (t : ℕ) :
    calcCost pricing dflt t model = calcCost pricing dflt t dflt := by
  unfold calcCost
  simp [h]

theorem calcCost_one (pricing : List (String × Price)) (dflt model : String) :
    calcCost pricing dflt 1 model = 0 := by
  unfold calcCost input_tokens output_tokens round6
  norm_num

theorem calcCost_mono (pricing : List (String × Price)) (dflt : String)
    (hnn : ∀ p ∈ pricing, 0 ≤ p.2.input ∧ 0 ≤ p.2.output)
    {t₁ t₂ : ℕ} (h : t₁ ≤ t₂) (model : String) :
    calcCost pricing dflt t₁ model ≤ calcCost pricing dflt t₂ model := by
  unfold calcCost
  apply round6_mono
  set m := if (lookupKey model pricing).isSome then model else dflt with hm
  set p := (lookupKey m pricing).getD ⟨0, 0⟩ with hp
  have hpnn : 0 ≤ p.input ∧ 0 ≤ p.output := by
    rcases hl : lookupKey m pricing with _ | q
    · rw [hp, hl]
      exact ⟨le_refl 0, le_refl 0⟩
    · rw [hp, hl]
      exact ⟨(hnn (m, q) (lookupKey_mem hl)).1, (hnn (m, q) (lookupKey_mem hl)).2⟩
  have h1 : (input_tokens t₁ : ℚ) ≤ (input_tokens t₂ : ℚ) := by
    have : input_tokens t₁ ≤ input_tokens t₂ := by
      unfold input_tokens
      omega
    exact_mod_cast this
  have h2 : (output_tokens t₁ : ℚ) ≤ (output_tokens t₂ : ℚ) := by
    have : output_tokens t₁ ≤ output_tokens t₂ := by
      unfold output_tokens
      omega
    exact_mod_cast this
  have e1 : (input_tokens t₁ : ℚ) / 1000 * p.input ≤
      (input_tokens t₂ : ℚ) / 1000 * p.input :=
    mul_le_mul_of_nonneg_right (by linarith) hpnn.1
  have e2 : (output_tokens t₁ : ℚ) / 1000 * p.output ≤
      (output_tokens t₂ : ℚ) / 1000 * p.output :=
    mul_le_mul_of_nonneg_right (by linarith) hpnn.2
  linarith

/-! ## Claims about the cost computation -/

/-- C1 (amended): for every token count `t` and model present in a
provider price table with prices `(pin, pout)`, `calculate_cost`
returns `round6` of `(int(0.75 t) / 1000) * pin + (int(0.25 t) / 1000) * pout`,
i.e. the spec formula with the 75/25 split truncated to whole tokens
before pricing. -/
theorem C1_truncated_split_cost (t : ℕ) (model : String) (pin pout : ℚ) :
    (lookupKey model OpenAIProvider.pricing = some ⟨pin, pout⟩ →
      OpenAIProvider.calculate_cost t model =
        round6 ((input_tokens t : ℚ) / 1000 * pin +
          (output_tokens t : ℚ) / 1000 * pout)) ∧
    (lookupKey model GeminiProvider.pricing = some ⟨pin, pout⟩ →
      GeminiProvider.calculate_cost t model =
        round6 ((input_tokens t : ℚ) / 1000 * pin +
          (output_tokens t : ℚ) / 1000 * pout)) ∧
    (lookupKey model ClaudeProvider.pricing = some ⟨pin, pout⟩ →
      ClaudeProvider.calculate_cost t model =
        round6 ((input_tokens t : ℚ) / 1000 * pin +
          (output_tokens t : ℚ) / 1000 * pout)) :=
  ⟨fun h => calcCost_of_lookup h t, fun h => calcCost_of_lookup h t,
    fun h => calcCost_of_lookup h t⟩

unseal Rat.add Rat.mul Rat.inv Rat.ofScientific Rat.sub in
theorem C1_truncated_split_cost_witness :
    lookupKey "gpt-4" OpenAIProvider.pricing = some ⟨0.03, 0.06⟩ ∧
    OpenAIProvider.calculate_cost 5 "gpt-4" =
      round6 ((input_tokens 5 : ℚ) / 1000 * 0.03 +
        (output_tokens 5 : ℚ) / 1000 * 0.06) :=
  ⟨by decide, (C1_truncated_split_cost 5 "gpt-4" 0.03 0.06).1 (by decide)⟩

unseal Rat.add Rat.mul Rat.inv Rat.ofScientific Rat.sub in
/-- C1 (counterexample): the spec formula prices the untruncated
75/25 split; at `t = 1` with the `gpt-4` prices the code returns `0`
while the spec formula rounds `0.0000375` to `0.000038`. -/
theorem C1_spec_formula_counterexample :
    lookupKey "gpt-4" OpenAIProvider.pricing = some ⟨0.03, 0.06⟩ ∧
    OpenAIProvider.calculate_cost 1 "gpt-4" = 0 ∧
    spec_cost 1 0.03 0.06 = 0.000038 ∧
    OpenAIProvider.calculate_cost 1 "gpt-4" ≠ spec_cost 1 0.03 0.06 := by
  refine ⟨by decide, by decide, by decide, by decide⟩

/-- C7: for each provider, `calculate_cost` is monotonically
non-decreasing in the token count at every fixed model name. -/
theorem C7_cost_monotone (t₁ t₂ : ℕ) (model : String) (h : t₁ ≤ t₂) :
    OpenAIProvider.calculate_cost t₁ model ≤ OpenAIProvider.calculate_cost t₂ model ∧
    GeminiProvider.calculate_cost t₁ model ≤ GeminiProvider.calculate_cost t₂ model ∧
    ClaudeProvider.calculate_cost t₁ model ≤ ClaudeProvider.calculate_cost t₂ model := by
  refine ⟨calcCost_mono _ _ ?_ h model, calcCost_mono _ _ ?_ h model,
    calcCost_mono _ _ ?_ h model⟩
  · intro p hp
    simp only [OpenAIProvider.pricing, List.mem_cons, List.not_mem_nil, or_false] at hp
    rcases hp with rfl | rfl | rfl <;> constructor <;> norm_num
  · intro p hp
    simp only [GeminiProvider.pricing, List.mem_cons, List.not_mem_nil, or_false] at hp
    rcases hp with rfl | rfl <;> constructor <;> norm_num
  · intro p hp
    simp only [ClaudeProvider.pricing, List.mem_cons, List.not_mem_nil, or_false] at hp
    rcases hp with rfl | rfl | rfl <;> constructor <;> norm_num

theorem C7_cost_monotone_witness :
    OpenAIProvider.calculate_cost 1 "gpt-4" ≤ OpenAIProvider.calculate_cost 8 "gpt-4" ∧
    GeminiProvider.calculate_cost 1 "gpt-4" ≤ GeminiProvider.calculate_cost 8 "gpt-4" ∧
    ClaudeProvider.calculate_cost 1 "gpt-4" ≤ ClaudeProvider.calculate_cost 8 "gpt-4" :=
  C7_cost_monotone 1 8 "gpt-4" (by decide)

/-- C8: a model name absent from a provider price table does not fail;
it is priced exactly as the provider's designated default model
(`gpt-4`, `gemini-pro`, `claude-3-sonnet-20240229`). -/
theorem C8_unknown_model_default (t : ℕ) (model : String) :
    (lookupKey model OpenAIProvider.pricing = none →
      OpenAIProvider.calculate_cost t model = OpenAIProvider.calculate_cost t "gpt-4") ∧
    (lookupKey model GeminiProvider.pricing = none →
      GeminiProvider.calculate_cost t model = GeminiProvider.calculate_cost t "gemini-pro") ∧
    (lookupKey model ClaudeProvider.pricing = none →
      ClaudeProvider.calculate_cost t model =
        ClaudeProvider.calculate_cost t "claude-3-sonnet-20240229") :=
  ⟨fun h => calcCost_of_lookup_none h t, fun h => calcCost_of_lookup_none h t,
    fun h => calcCost_of_lookup_none h t⟩

theorem C8_unknown_model_default_witness :
    OpenAIProvider.calculate_cost 2000 "no-such-model" =
      OpenAIProvider.calculate_cost 2000 "gpt-4" ∧
    GeminiProvider.calculate_cost 2000 "no-such-model" =
      GeminiProvider.calculate_cost 2000 "gemini-pro" ∧
    ClaudeProvider.calculate_cost 2000 "no-such-model" =
      ClaudeProvider.calculate_cost 2000 "claude-3-sonnet-20240229" :=
  ⟨(C8_unknown_model_default 2000 "no-such-model").1 (by decide),
    (C8_unknown_model_default 2000 "no-such-model").2.1 (by decide),
    (C8_unknown_model_default 2000 "no-such-model").2.2 (by decide)⟩

/-- C9: the truncated 75/25 split prices at most `t` tokens, strictly
fewer whenever `t` is not a multiple of 4; in particular one token
costs zero under every provider and model name. -/
theorem C9_token_truncation (t : ℕ) (model : String) :
    input_tokens t + output_tokens t ≤ t ∧
    (t % 4 ≠ 0 → input_tokens t + output_tokens t < t) ∧
    OpenAIProvider.calculate_cost 1 model = 0 ∧
    GeminiProvider.calculate_cost 1 model = 0 ∧
    ClaudeProvider.calculate_cost 1 model = 0 := by
  refine ⟨?_, ?_, calcCost_one _ _ _, calcCost_one _ _ _, calcCost_one _ _ _⟩
  · unfold input_tokens output_tokens
    omega
  · intro hne
    unfold input_tokens output_tokens
    omega

theorem C9_token_truncation_witness :
    input_tokens 5 + output_tokens 5 < 5 ∧
    OpenAIProvider.calculate_cost 1 "gpt-4" = 0 :=
  ⟨(C9_token_truncation 5 "gpt-4").2.1 (by decide),
    (C9_token_truncation 5 "gpt-4").2.2.1⟩

/-! ## Lemmas about enrichment and validation -/

theorem lookupKey_append_some {k : String} {l₁ l₂ : List (String × α)} {v : α}
    (h : lookupKey k l₁ = some v) : lookupKey k (l₁ ++ l₂) = some v := by
  induction l₁ with
  | nil => simp [lookupKey] at h
  | cons p rest ih =>
    obtain ⟨k₀, v₀⟩ := p
    by_cases hk : k₀ = k
    · simp [lookupKey, hk] at h ⊢
      exact h
    · simp only [lookupKey, List.cons_append, if_neg hk] at h ⊢
      exact ih h

theorem lookupKey_append_none {k : String} {l₁ l₂ : List (String × α)}
    (h : lookupKey k l₁ = none) : lookupKey k (l₁ ++ l₂) = lookupKey k l₂ := by
  induction l₁ with
  | nil => simp [lookupKey]
  | cons p rest ih =>
    obtain ⟨k₀, v₀⟩ := p
    by_cases hk : k₀ = k
    · simp [lookupKey, hk] at h
    · simp only [lookupKey, List.cons_append, if_neg hk] at h ⊢
      exact ih h

theorem enrichStep_lookup_preserved (acc : List (String × JSON))
    (p : String × JSON) {k : String} {v : JSON}
    (h : lookupKey k acc = some v) :
    lookupKey k (enrichStep acc p) = some v := by
  unfold enrichStep
  cases h₁ : lookupKey p.1 acc with
  | none =>
    cases h₂ : defaultOf p.2 with
    | none => exact h
    | some d => exact lookupKey_append_some h
  | some w => exact h

theorem enrichStep_lookup_other (acc : List (String × JSON))
    (p : String × JSON) {k : String} (hk : p.1 ≠ k)
    (h : lookupKey k acc = none) :
    lookupKey k (enrichStep acc p) = none := by
  unfold enrichStep
  cases h₁ : lookupKey p.1 acc with
  | none =>
    cases h₂ : defaultOf p.2 with
    | none => exact h
    | some d =>
      rw [lookupKey_append_none h]
      simp [lookupKey, hk]
  | some w => exact h

theorem enrich_preserves (props : List (String × JSON)) :
    ∀ (acc : List (String × JSON)) (k : String) (v : JSON),
      lookupKey k acc = some v →
      lookupKey k (props.foldl enrichStep acc) = some v := by
  induction props with
  | nil =>
    intro acc k v h
    exact h
  | cons p rest ih =>
    intro acc k v h
    exact ih _ k v (enrichStep_lookup_preserved acc p h)

theorem enrich_default (props : List (String × JSON)) :
    ∀ (acc : List (String × JSON)) (name : String) (psch d : JSON),
      lookupKey name props = some psch → defaultOf psch = some d →
      lookupKey name acc = none →
      lookupKey name (props.foldl enrichStep acc) = some d := by
  induction props with
  | nil =>
    intro acc name psch d hp
    simp [lookupKey] at hp
  | cons p rest ih =>
    intro acc name psch d hp hd hn
    obtain ⟨n, q⟩ := p
    by_cases hk : n = name
    · subst hk
      have hq : q = psch := by simpa [lookupKey] using hp
      subst hq
      have hstep : lookupKey n (enrichStep acc (n, q)) = some d := by
        unfold enrichStep
        simp only [hn, hd]
        rw [lookupKey_append_none hn]
        simp [lookupKey]
      exact enrich_preserves rest _ n d hstep
    · have hp₁ : lookupKey name rest = some psch := by
        simpa [lookupKey, hk] using hp
      have hn₁ : lookupKey name (enrichStep acc (n, q)) = none :=
        enrichStep_lookup_other acc (n, q) hk hn
      exact ih _ name psch d hp₁ hd hn₁

theorem draft7Errors_required {vars schema : List (String × JSON)}
    (h : draft7Errors vars schema = []) {r : String}
    (hr : r ∈ requiredList schema) : (lookupKey r vars).isSome := by
  unfold draft7Errors at h
  have h₁ := (List.append_eq_nil.mp h).1
  by_cases hs : (lookupKey r vars).isSome
  · exact hs
  · exfalso
    have := List.filterMap_eq_nil_iff.mp h₁ r hr
    simp [hs] at this

/-! ## Claim C2: validation success and enrichment -/

/-- C2: whenever `validate_variables_against_schema` succeeds, every
`required` property is present in the result, every declared property
absent from the input that carries a `default` maps to that default in
the result, and every caller-supplied binding is kept unaltered. -/
theorem C2_validate_enrich (vars schema result : List (String × JSON))
    (h : validate_variables_against_schema vars schema = .ok result) :
    (∀ r ∈ requiredList schema, (lookupKey r result).isSome) ∧
    (∀ (name : String) (psch d : JSON),
      lookupKey name (propertiesOf schema) = some psch →
      defaultOf psch = some d → lookupKey name vars = none →
      lookupKey name result = some d) ∧
    (∀ (k : String) (v : JSON), lookupKey k vars = some v →
      lookupKey k result = some v) := by
  unfold validate_variables_against_schema at h
  by_cases hs : schema.isEmpty
  · rw [if_pos hs] at h
    injection h with h
    subst h
    have hsch : schema = [] := by
      cases schema with
      | nil => rfl
      | cons p rest => simp at hs
    subst hsch
    refine ⟨?_, ?_, ?_⟩
    · intro r hr
      simp [requiredList, lookupKey] at hr
    · intro name psch d hp
      simp [propertiesOf, lookupKey] at hp
    · intro k v hv
      exact hv
  · rw [if_neg hs] at h
    cases herr : draft7Errors vars schema with
    | cons e es =>
      rw [herr] at h
      simp at h
    | nil =>
      rw [herr] at h
      injection h with h
      subst h
      refine ⟨?_, ?_, ?_⟩
      · intro r hr
        have hsome := draft7Errors_required herr hr
        obtain ⟨v, hv⟩ := Option.isSome_iff_exists.mp hsome
        have := enrich_preserves (propertiesOf schema) vars r v hv
        simp [enrich, this]
      · intro name psch d hp hd hn
        exact enrich_default (propertiesOf schema) vars name psch d hp hd hn
      · intro k v hv
        exact enrich_preserves (propertiesOf schema) vars k v hv

/-- A schema with a required typed property and a defaulted property,
used as a concrete input below. -/
def demoSchema : List (String × JSON) :=
  [("properties", .obj
      [("name", .obj [("type", .str "string")]),
       ("tone", .obj [("type", .str "string"), ("default", .str "formal")])]),
   ("required", .arr [.str "name"])]

theorem C2_validate_enrich_witness :
    (lookupKey "name" [("name", JSON.str "Ada"), ("tone", JSON.str "formal")]).isSome ∧
    lookupKey "tone" [("name", JSON.str "Ada"), ("tone", JSON.str "formal")] =
      some (JSON.str "formal") ∧
    lookupKey "name" [("name", JSON.str "Ada"), ("tone", JSON.str "formal")] =
      some (JSON.str "Ada") := by
  have h := C2_validate_enrich [("name", JSON.str "Ada")] demoSchema
    [("name", JSON.str "Ada"), ("tone", JSON.str "formal")] (by rfl)
  exact ⟨h.1 "name" (by decide),
    h.2.1 "tone" (JSON.obj [("type", JSON.str "string"), ("default", JSON.str "formal")])
      (JSON.str "formal") (by rfl) (by rfl) (by rfl),
    h.2.2 "name" (JSON.str "Ada") (by rfl)⟩

/-! ## Claims about the execution orchestrator -/

/-- C3: when the vendor call raised after a fully successful setup,
exactly one history row is written — terminal `error` status, the
exception message, zero tokens and cost, and the measured wall-clock
duration — and the failure is re-surfaced as an HTTP 500. -/
theorem C3_error_path_record (prompt_id : ℕ) (req : PromptExecutionRequest)
    (prompt : ExpertPrompt)
    (llmExec : String → String → String → Except String LLMResult)
    (gauge0 : ℤ) (start_time t_end : ℚ)
    (v : List (String × JSON)) (filled msg : String)
    (hv : validate_variables_against_schema req.vars prompt.variables_schema = .ok v)
    (hp : pyOr req.llm_provider "openai" ∈ LLMFactory.providers)
    (hf : formatTemplate prompt.template v = .ok filled)
    (he : llmExec (pyOr req.llm_provider "openai") filled
      (pyOr req.llm_model "gpt-4") = .error msg) :
    (execute_prompt prompt_id req (some prompt) llmExec gauge0 start_time t_end).records =
      [⟨prompt_id, req.vars, none, pyOr req.llm_provider "unknown",
        pyOr req.llm_model "unknown", 0, 0, t_end - start_time, "error", some msg⟩] ∧
    (execute_prompt prompt_id req (some prompt) llmExec gauge0 start_time t_end).result =
      .error ⟨500, "Execution failed: " ++ msg⟩ := by
  simp [execute_prompt, hv, hp, hf, he]

theorem C3_error_path_record_witness :
    (execute_prompt 1 ⟨[], none, none⟩ (some ⟨[.lit "hi"], []⟩)
        (fun _ _ _ => .error "boom") 0 2 5).records =
      [⟨1, [], none, "unknown", "unknown", 0, 0, (5 : ℚ) - 2, "error", some "boom"⟩] ∧
    (execute_prompt 1 ⟨[], none, none⟩ (some ⟨[.lit "hi"], []⟩)
        (fun _ _ _ => .error "boom") 0 2 5).result =
      .error ⟨500, "Execution failed: " ++ "boom"⟩ :=
  C3_error_path_record 1 ⟨[], none, none⟩ ⟨[.lit "hi"], []⟩
    (fun _ _ _ => .error "boom") 0 2 5 [] "hi" "boom"
    (by rfl) (by decide) (by rfl) (by rfl)

/-- C4 (counterexample): on the error path the history row stores the
caller-supplied raw variable map, not the enriched map actually used
for rendering: with an empty input and a schema defaulting `tone` to
`"formal"`, enrichment produces a nonempty map, yet the row stores
`[]`. -/
theorem C4_variables_field_counterexample :
    validate_variables_against_schema [] toneSchema =
      .ok [("tone", JSON.str "formal")] ∧
    (execute_prompt 1 ⟨[], none, none⟩ (some ⟨[.lit "x"], toneSchema⟩)
        (fun _ _ _ => .error "boom") 0 0 1).records.map
      PromptExecutionHistory.vars = [[]] ∧
    ([] : List (String × JSON)) ≠ [("tone", JSON.str "formal")] :=
  ⟨by rfl, by rfl, by simp⟩

/-- C4 (amended): every history row written on the success path stores
the enriched variable map returned by validation, while the row written
on the error path stores the caller-supplied raw variable map. -/
theorem C4_variables_field (prompt_id : ℕ) (req : PromptExecutionRequest)
    (prompt? : Option ExpertPrompt)
    (llmExec : String → String → String → Except String LLMResult)
    (gauge0 : ℤ) (start_time t_end : ℚ) :
    ∀ rec ∈ (execute_prompt prompt_id req prompt? llmExec gauge0
        start_time t_end).records,
      (rec.status = "success" ∧ ∃ p, prompt? = some p ∧
        validate_variables_against_schema req.vars p.variables_schema =
          .ok rec.vars) ∨
      (rec.status = "error" ∧ rec.vars = req.vars) := by
  intro rec h
  cases prompt? with
  | none => simp [execute_prompt] at h
  | some p =>
    cases hv : validate_variables_against_schema req.vars p.variables_schema with
    | error e => simp [execute_prompt, hv] at h
    | ok v =>
      by_cases hp : pyOr req.llm_provider "openai" ∈ LLMFactory.providers
      · cases hf : formatTemplate p.template v with
        | error k => simp [execute_prompt, hv, hp, hf] at h
        | ok filled =>
          cases he : llmExec (pyOr req.llm_provider "openai") filled
              (pyOr req.llm_model "gpt-4") with
          | error msg =>
            simp [execute_prompt, hv, hp, hf, he] at h
            subst h
            exact Or.inr ⟨rfl, rfl⟩
          | ok res =>
            simp [execute_prompt, hv, hp, hf, he] at h
            subst h
            exact Or.inl ⟨rfl, p, rfl, hv⟩
      · simp [execute_prompt, hv, hp] at h

theorem C4_variables_field_witness :
    (⟨1, [], none, "unknown", "unknown", 0, 0, (1 : ℚ) - 0, "error",
      some "boom"⟩ : PromptExecutionHistory).status = "error" ∧
    (⟨1, [], none, "unknown", "unknown", 0, 0, (1 : ℚ) - 0, "error",
      some "boom"⟩ : PromptExecutionHistory).vars = [] := by
  have h := C4_variables_field 1 ⟨[], none, none⟩ (some ⟨[.lit "x"], toneSchema⟩)
    (fun _ _ _ => .error "boom") 0 0 1
    ⟨1, [], none, "unknown", "unknown", 0, 0, (1 : ℚ) - 0, "error", some "boom"⟩
    (List.mem_singleton.mpr rfl)
  rcases h with ⟨hs, -⟩ | ⟨hs, hvars⟩
  · exact absurd hs (by decide)
  · exact ⟨hs, hvars⟩

/-- C5: the in-flight gauge is incremented once at entry and
decremented once in `finally`, so it returns to its pre-call value on
every exit path. -/
theorem C5_gauge_balance (prompt_id : ℕ) (req : PromptExecutionRequest)
    (prompt? : Option ExpertPrompt)
    (llmExec : String → String → String → Except String LLMResult)
    (gauge0 : ℤ) (start_time t_end : ℚ) :
    (execute_prompt prompt_id req prompt? llmExec gauge0 start_time t_end).gauge =
      gauge0 := by
  cases prompt? with
  | none => simp [execute_prompt]
  | some p =>
    cases hv : validate_variables_against_schema req.vars p.variables_schema with
    | error e => simp [execute_prompt, hv]
    | ok v =>
      by_cases hp : pyOr req.llm_provider "openai" ∈ LLMFactory.providers
      · cases hf : formatTemplate p.template v with
        | error k => simp [execute_prompt, hv, hp, hf]
        | ok filled =>
          cases he : llmExec (pyOr req.llm_provider "openai") filled
              (pyOr req.llm_model "gpt-4") with
          | error msg => simp [execute_prompt, hv, hp, hf, he]
          | ok res => simp [execute_prompt, hv, hp, hf, he]
      · simp [execute_prompt, hv, hp]

/-- C6: a schema-validation failure is reported as HTTP 400 and writes
no history row at all. -/
theorem C6_validation_failure_no_record (prompt_id : ℕ)
    (req : PromptExecutionRequest) (prompt : ExpertPrompt)
    (llmExec : String → String → String → Except String LLMResult)
    (gauge0 : ℤ) (start_time t_end : ℚ) (e : String)
    (hv : validate_variables_against_schema req.vars prompt.variables_schema =
      .error e) :
    (execute_prompt prompt_id req (some prompt) llmExec gauge0 start_time
        t_end).result = .error ⟨400, e⟩ ∧
    (execute_prompt prompt_id req (some prompt) llmExec gauge0 start_time
        t_end).records = [] := by
  simp [execute_prompt, hv]

theorem C6_validation_failure_no_record_witness :
    (execute_prompt 7 ⟨[], none, none⟩ (some ⟨[.lit "x"], nameRequiredSchema⟩)
        (fun _ _ _ => .error "boom") 3 0 1).result =
      .error ⟨400,
        "Variable validation failed:\nroot: name is a required property"⟩ ∧
    (execute_prompt 7 ⟨[], none, none⟩ (some ⟨[.lit "x"], nameRequiredSchema⟩)
        (fun _ _ _ => .error "boom") 3 0 1).records = [] :=
  C6_validation_failure_no_record 7 ⟨[], none, none⟩
    ⟨[.lit "x"], nameRequiredSchema⟩ (fun _ _ _ => .error "boom") 3 0 1
    "Variable validation failed:\nroot: name is a required property" (by rfl)

/-- C10 (counterexample): the `or "unknown"` fallback also fires when
the caller sends an explicit empty string, not only on an explicit
null: with `llm_provider = some ""`, dispatch still resolves to
`("openai", "gpt-4")` yet the error row is labeled `"unknown"`. -/
theorem C10_null_only_counterexample :
    (some "" : Option String) ≠ none ∧
    (execute_prompt 1 ⟨[], some "", some ""⟩ (some ⟨[.lit "x"], []⟩)
        (fun _ _ _ => .error "boom") 0 0 1).records.map
      PromptExecutionHistory.llm_provider = ["unknown"] ∧
    (execute_prompt 1 ⟨[], some "", some ""⟩ (some ⟨[.lit "x"], []⟩)
        (fun _ _ _ => .error "boom") 0 0 1).dispatched =
      some ("openai", "gpt-4") :=
  ⟨by simp, by rfl, by rfl⟩

/-- C10 (amended): pydantic defaulting means an omitted field can never
trigger the falsy `or` fallbacks — they fire exactly on an explicit
null or an explicit empty string; in those cases dispatch still
resolves to `"openai"` / `"gpt-4"`, but the error row and the error
metric are labeled `"unknown"` / `"unknown"`. -/
theorem C10_fallback_labels (prompt_id : ℕ) (req : PromptExecutionRequest)
    (prompt : ExpertPrompt)
    (llmExec : String → String → String → Except String LLMResult)
    (gauge0 : ℤ) (start_time t_end : ℚ)
    (v : List (String × JSON)) (filled msg : String)
    (hprov : req.llm_provider = none ∨ req.llm_provider = some "")
    (hmod : req.llm_model = none ∨ req.llm_model = some "")
    (hv : validate_variables_against_schema req.vars prompt.variables_schema = .ok v)
    (hf : formatTemplate prompt.template v = .ok filled)
    (he : llmExec "openai" filled "gpt-4" = .error msg) :
    (∀ f : Option (Option String),
      (parseOptField "openai" f = none ∨ parseOptField "openai" f = some "") ↔
        (f = some none ∨ f = some (some ""))) ∧
    (execute_prompt prompt_id req (some prompt) llmExec gauge0 start_time
        t_end).dispatched = some ("openai", "gpt-4") ∧
    (execute_prompt prompt_id req (some prompt) llmExec gauge0 start_time
        t_end).records.map PromptExecutionHistory.llm_provider = ["unknown"] ∧
    (execute_prompt prompt_id req (some prompt) llmExec gauge0 start_time
        t_end).records.map PromptExecutionHistory.llm_model = ["unknown"] ∧
    (execute_prompt prompt_id req (some prompt) llmExec gauge0 start_time
        t_end).metrics = [.execCounter prompt_id "unknown" "error"] := by
  have hpyp : pyOr req.llm_provider "openai" = "openai" := by
    rcases hprov with h | h <;> simp [pyOr, h]
  have hpym : pyOr req.llm_model "gpt-4" = "gpt-4" := by
    rcases hmod with h | h <;> simp [pyOr, h]
  have hpyu : pyOr req.llm_provider "unknown" = "unknown" := by
    rcases hprov with h | h <;> simp [pyOr, h]
  have hpymu : pyOr req.llm_model "unknown" = "unknown" := by
    rcases hmod with h | h <;> simp [pyOr, h]
  refine ⟨?_, ?_⟩
  · intro f
    rcases f with _ | g
    · simp [parseOptField]
    · rcases g with _ | s
      · simp [parseOptField]
      · simp [parseOptField]
  · simp [execute_prompt, hv, hpyp, hpym, hpyu, hpymu, hf, he,
      LLMFactory.providers]

theorem C10_fallback_labels_witness :
    (∀ f : Option (Option String),
      (parseOptField "openai" f = none ∨ parseOptField "openai" f = some "") ↔
        (f = some none ∨ f = some (some ""))) ∧
    (execute_prompt 1 ⟨[], none, none⟩ (some ⟨[.lit "x"], []⟩)
        (fun _ _ _ => .error "boom") 0 0 1).dispatched =
      some ("openai", "gpt-4") ∧
    (execute_prompt 1 ⟨[], none, none⟩ (some ⟨[.lit "x"], []⟩)
        (fun _ _ _ => .error "boom") 0 0 1).records.map
      PromptExecutionHistory.llm_provider = ["unknown"] ∧
    (execute_prompt 1 ⟨[], none, none⟩ (some ⟨[.lit "x"], []⟩)
        (fun _ _ _ => .error "boom") 0 0 1).records.map
      PromptExecutionHistory.llm_model = ["unknown"] ∧
    (execute_prompt 1 ⟨[], none, none⟩ (some ⟨[.lit "x"], []⟩)
        (fun _ _ _ => .error "boom") 0 0 1).metrics =
      [.execCounter 1 "unknown" "error"] :=
  C10_fallback_labels 1 ⟨[], none, none⟩ ⟨[.lit "x"], []⟩
    (fun _ _ _ => .error "boom") 0 0 1 [] "x" "boom"
    (Or.inl rfl) (Or.inl rfl) (by rfl) (by rfl) (by rfl)

end RubiStudio
